import Mathlib

/-!
Shallow embedding of the lastfeeder feed-synchronization engine
(src/lastfeeder/lastfeeder.py, with the per-username loops of
src/lastfeeder/cli.py and src/lastfeeder/lastfeeder-cli.py).

Python exceptions are embedded as `Except PyError`; dictionary lookups
that the source may perform on absent keys become `Option` fields; the
network calls (recent-tracks fetch, play-count fetch, HEAD image probe)
are oracle parameters, since their results arrive from outside the
program.  The filesystem state relevant to `create_rss` is the existing
feed file: absent, unparseable, or parsed into its document-ordered list
of guid-element texts.
-/

namespace Lastfeeder

/-- The Python exception kinds the embedded code can raise:
`keyError` for a missing dictionary key, `valueError` for `int()` on a
non-numeric string, `parseError` for `ElementTree.parse` on a document
that is not well-formed XML, and `httpError` for a failed HTTP request
or a missing response header. -/
inductive PyError where
  | keyError
  | valueError
  | parseError
  | httpError
  deriving DecidableEq, Repr

/-- The artist sub-record of a raw track: `track['artist']['mbid']` and
`track['artist']['#text']` (both always present in the API's shape). -/
structure Artist where
  mbid : String
  text : String
  deriving DecidableEq, Repr

/-- A raw track record, holding exactly the fields the source reads.
`attr_nowplaying` is `some v` when both `'@attr'` and its `'nowplaying'`
key are present with value `v`; `date_uts` is `some uts` when both
`'date'` and its `'uts'` key are present (a lookup on `none` is a
`KeyError`); `image` is `some texts` when the `'image'` key is present,
holding each image entry's `'#text'`. -/
structure RawTrack where
  attr_nowplaying : Option String
  url : String
  artist : Artist
  date_uts : Option String
  name : String
  image : Option (List String)
  deriving DecidableEq, Repr

/-- The now-playing test used both in `get_recent_tracks` and in the
`create_rss` loop: `'@attr' in track and 'nowplaying' in track['@attr']
and track['@attr']['nowplaying'] == 'true'`. -/
def nowplayingTrue (track : RawTrack) : Bool :=
  match track.attr_nowplaying with
  | some v => v == "true"
  | none => false

/-- `mkguid` (lastfeeder.py lines 18-27): the f-string
`f"{username}-{track['date']['uts']}--{track['artist']['mbid'] or
track['artist']['#text']}---{track['name']}"`.  Reading
`track['date']['uts']` on a record without the key raises `KeyError`;
Python's `or` takes the mbid when it is a non-empty (truthy) string and
the artist display text otherwise. -/
def mkguid (username : String) (track : RawTrack) : Except PyError String :=
  match track.date_uts with
  | none => .error .keyError
  | some uts =>
      .ok (username ++ "-" ++ uts ++ "--" ++
        (if track.artist.mbid = "" then track.artist.text else track.artist.mbid) ++
        "---" ++ track.name)

/-- One feed item as the entry object accumulates fields: each field is
`none` until the corresponding setter (`entry.title`, `entry.guid`,
`entry.link`, `entry.published`, `entry.enclosure`) has run.  The
enclosure holds `(url, Content-Length, Content-Type)`. -/
structure Entry where
  title : Option String
  guid : Option String
  link : Option String
  published : Option Int
  enclosure : Option (String × String × String)
  deriving DecidableEq, Repr

/-- The play-count oracle: the result of
`get_playcount(username, title, artist)` keyed by track name and artist
display text.  `get_playcount` catches every exception internally and
returns `None`, so the oracle yields `Option Int` and never raises;
success parses `int(r.json()['track']['userplaycount'])`. -/
abbrev PlaycountOracle := String → String → Option Int

/-- The image-probe oracle: `head(url, timeout=TIMEOUT)` followed by
reads of `r.headers['Content-Length']` and `r.headers['Content-Type']`.
`none` covers both a raising request and a missing header (either way
`add_track_rss_entry` raises at this point). -/
abbrev ProbeOracle := String → Option (String × String)

/-- Helper for `pyInt?`: fold a digit list into a number, `none` when a
non-digit appears or when no digit was read at all. -/
def pyIntDigits : List Char → Option Nat → Option Nat
  | [], acc => acc
  | c :: cs, acc =>
      if c.isDigit then
        pyIntDigits cs (some ((acc.getD 0) * 10 + (c.toNat - '0'.toNat)))
      else none

/-- Python's `int(s)` on a string, as the source applies it to
`track['date']['uts']`: an optional leading minus sign followed by at
least one decimal digit parses, anything else raises `ValueError`.
(Python additionally tolerates surrounding whitespace and a leading
plus sign; no settled statement relies on those inputs.) -/
def pyInt? (s : String) : Option Int :=
  match s.data with
  | '-' :: cs => (pyIntDigits cs none).map (fun n => -(n : Int))
  | cs => (pyIntDigits cs none).map (fun n => (n : Int))

/-- Python's `str.strip()`: drop whitespace from both ends. -/
def pyStrip (s : String) : String :=
  String.mk
    (((s.data.dropWhile Char.isWhitespace).reverse.dropWhile Char.isWhitespace).reverse)

/-- The title computation of `add_track_rss_entry` (lines 142-145):
`f"{track['artist']['#text']} - {track['name']}"`, then
`if playcount:` (Python truthiness: `None` and `0` are falsy, every
other integer truthy) append
`f" ({playcount} play{'s' if playcount > 1 else ''})"`. -/
def entryTitle (pc : PlaycountOracle) (track : RawTrack) : String :=
  let base := track.artist.text ++ " - " ++ track.name
  match pc track.name track.artist.text with
  | some n =>
      if n ≠ 0 then
        base ++ " (" ++ toString n ++ " play" ++ (if n > 1 then "s" else "") ++ ")"
      else base
  | none => base

/-- `LastFeeder.add_track_rss_entry` (lastfeeder.py lines 128-156),
as the entry it leaves in the feed plus the exception it raises, if
any.  The source registers the entry with `feed.add_entry()` before
setting any field, so on an exception the partially populated entry
remains in the feed; the second component records the raise. Field
order follows the source: title (with play-count suffix under Python
truthiness), guid, link, published (`int(uts)` raising `ValueError` on
a non-numeric string), then the optional enclosure from the last image
entry's trimmed text. -/
def add_track_rss_entry (pc : PlaycountOracle) (probe : ProbeOracle)
    (username : String) (track : RawTrack) : Entry × Option PyError :=
  let e0 : Entry := ⟨some (entryTitle pc track), none, none, none, none⟩
  match mkguid username track with
  | .error err => (e0, some err)
  | .ok g =>
    let e1 : Entry := { e0 with guid := some g }
    let e2 : Entry := { e1 with link := some track.url }
    match track.date_uts with
    | none => (e2, some .keyError)
    | some uts =>
      match pyInt? uts with
      | none => (e2, some .valueError)
      | some epochSecs =>
        let e3 : Entry := { e2 with published := some epochSecs }
        match track.image with
        | none => (e3, none)
        | some imgs =>
          match imgs.getLast? with
          | none => (e3, none)
          | some lastImage =>
            let url := pyStrip lastImage
            if url = "" then (e3, none)
            else
              match probe url with
              | none => (e3, some .httpError)
              | some hdrs => ({ e3 with enclosure := some (url, hdrs.1, hdrs.2) }, none)

/-- The `for track in recent_tracks` loop of `create_rss` (lines
206-221): skip tracks whose `@attr.nowplaying` is `'true'`; otherwise
call `add_track_rss_entry` with any exception caught and logged, the
loop continuing.  Modelled from the spec: the external feed library's
`add_entry` collects entries in the order received, so the resulting
list is in processing order. -/
def addTracks (pc : PlaycountOracle) (probe : ProbeOracle)
    (username : String) : List RawTrack → List Entry
  | [] => []
  | t :: ts =>
      if nowplayingTrue t then addTracks pc probe username ts
      else (add_track_rss_entry pc probe username t).1 :: addTracks pc probe username ts

/-- The state of the existing feed file when present:
`ElementTree.parse` either raises (the file is not well-formed XML) or
yields a document, of which the merge guard reads the texts of the
`guid` elements in document order. -/
inductive ParseOutcome where
  | ok (guids : List String)
  | malformed
  deriving DecidableEq, Repr

/-- What `create_rss` does to the filesystem: `upToDate` means the
guard returned the existing path with the file's bytes untouched;
`written` means the feed was rebuilt and `feed.rss_file(fp)` overwrote
the path with exactly these entries. -/
inductive RssOutcome where
  | upToDate
  | written (entries : List Entry)
  deriving DecidableEq, Repr

/-- `LastFeeder.create_rss` (lastfeeder.py lines 164-223).  `existing`
is `none` when `fp.is_file()` is false.  When the file parses, the guard
evaluates `[*old_feed.iter('guid')][-1].text == mkguid(username,
recent_tracks[0])` inside `suppress(IndexError)`: an empty guid list or
an empty track list raises `IndexError`, suppressed, and the rebuild
proceeds; a `KeyError` from `mkguid` is not suppressed and propagates.
On equality the function returns the path without writing. -/
def create_rss (pc : PlaycountOracle) (probe : ProbeOracle) (username : String)
    (recent_tracks : List RawTrack) (existing : Option ParseOutcome) :
    Except PyError RssOutcome :=
  match existing with
  | none => .ok (.written (addTracks pc probe username recent_tracks))
  | some .malformed => .error .parseError
  | some (.ok oldGuids) =>
    match oldGuids.getLast? with
    | none => .ok (.written (addTracks pc probe username recent_tracks))
    | some lastGuid =>
      match recent_tracks.head? with
      | none => .ok (.written (addTracks pc probe username recent_tracks))
      | some t0 =>
        match mkguid username t0 with
        | .error e => .error e
        | .ok g =>
          if lastGuid = g then .ok .upToDate
          else .ok (.written (addTracks pc probe username recent_tracks))

/-- The post-processing of the parsed list in
`LastFeeder.get_recent_tracks` (lines 82-88): when the first element
carries `@attr.nowplaying == 'true'` the list is re-sliced to
`tracks[1:]`.  On an empty list the subscript `tracks[0]` raises
`IndexError`, which the function's broad handler turns into an empty
result — the same value the no-strip branch would return. -/
def get_recent_tracks_post : List RawTrack → List RawTrack
  | [] => []
  | t :: ts => if nowplayingTrue t then ts else t :: ts

/-- The per-username loop of `LastFeederCLI.main` (cli.py lines 43-53):
no handler wraps `create_recent_tracks_rss`, so the first raising sync
aborts the loop.  Returns the usernames whose sync was attempted and
the unhandled exception, if one escaped.  The source iterates
`set(self.usernames)`; the iteration is modelled over the list in
order, which the settled claims do not depend on. -/
def cli_main_run (sync : String → Except PyError Unit) :
    List String → List String × Option PyError
  | [] => ([], none)
  | u :: us =>
      match sync u with
      | .ok _ =>
          let rest := cli_main_run sync us
          (u :: rest.1, rest.2)
      | .error e => ([u], some e)

/-- The per-username loop of the historical `LastFeeder.main`
(lastfeeder-cli.py lines 60-87): each `create_rss` call sits in a
`try`/`except Exception` that logs and continues, so every username is
attempted; the result pairs each username with the exception caught for
it, if any. -/
def old_cli_main_run (sync : String → Except PyError Unit) :
    List String → List (String × Option PyError)
  | [] => []
  | u :: us =>
      (u, match sync u with | .ok _ => none | .error e => some e) :: old_cli_main_run sync us

/-! Concrete sample data used by scenario conjuncts, counterexamples
and witnesses. -/

/-- A play-count oracle that always fails (every `get_playcount` call
returns `None`). -/
def pcNone : PlaycountOracle := fun _ _ => none

/-- An image-probe oracle that always fails. -/
def probeNone : ProbeOracle := fun _ => none

/-- A now-playing pseudo-track: carries `@attr.nowplaying='true'` and
no `date`. -/
def tNowPlaying : RawTrack :=
  ⟨some "true", "http://x/np", ⟨"", "ArtistA"⟩, none, "SongNP", none⟩

/-- A well-formed historical track. -/
def tA : RawTrack :=
  ⟨none, "http://x/a", ⟨"mbidA", "ArtistA"⟩, some "100", "SongA", none⟩

/-- A second well-formed historical track. -/
def tB : RawTrack :=
  ⟨none, "http://x/b", ⟨"", "ArtistB"⟩, some "90", "SongB", none⟩

/-- A track whose record lacks the `date` field entirely. -/
def tNoDate : RawTrack :=
  ⟨none, "http://x/c", ⟨"", "ArtistC"⟩, none, "SongC", none⟩

/-- A well-formed track carrying an image list whose last entry has
surrounding whitespace. -/
def tImg : RawTrack :=
  ⟨none, "http://x/d", ⟨"mbidD", "ArtistD"⟩, some "70", "SongD",
    some ["http://img/small", "  http://img/big  "]⟩

/-- An image-probe oracle that always succeeds with fixed headers. -/
def probeOk : ProbeOracle := fun _ => some ("12345", "image/png")

deriving instance DecidableEq for Except

/-! Helper lemmas shared by several claim theorems. -/

/-- On a track whose `date.uts` is present and numeric, every branch of
`add_track_rss_entry` (whatever the image list and the probe do) leaves
the entry's title, guid, link and published fields populated as the
source sets them before the enclosure step. -/
theorem add_track_core_fields (pc : PlaycountOracle) (probe : ProbeOracle)
    (username : String) (t : RawTrack) (uts : String) (m : Int)
    (hd : t.date_uts = some uts) (hm : pyInt? uts = some m) :
    (add_track_rss_entry pc probe username t).1.title = some (entryTitle pc t) ∧
    (add_track_rss_entry pc probe username t).1.guid =
      some (username ++ "-" ++ uts ++ "--" ++
        (if t.artist.mbid = "" then t.artist.text else t.artist.mbid) ++
        "---" ++ t.name) ∧
    (add_track_rss_entry pc probe username t).1.link = some t.url ∧
    (add_track_rss_entry pc probe username t).1.published = some m := by
  simp only [add_track_rss_entry, mkguid, hd, hm]
  cases himg : t.image with
  | none => simp
  | some imgs =>
    cases hlast : imgs.getLast? with
    | none => simp [hlast]
    | some lastImage =>
      by_cases hurl : pyStrip lastImage = ""
      · simp [hlast, hurl]
      · cases hpr : probe (pyStrip lastImage) with
        | none => simp [hlast, hurl, hpr]
        | some hdrs => simp [hlast, hurl, hpr]

/-! Claim theorems. -/

/-- C6: for every username and every track record carrying a
`date.uts`, an artist `(mbid, #text)` and a name, `mkguid` yields
exactly `"{username}-{uts}--{artist_mbid_or_text}---{track_name}"`,
with the literal separators `-`, `--`, `---`, where the middle part is
the mbid when non-empty and otherwise the artist display text; and the
function is deterministic: equal inputs yield the equal string. -/
theorem c6_mkguid_format :
    (∀ (username uts mbid atext trackName trackUrl : String)
        (attr : Option String) (img : Option (List String)),
        mkguid username ⟨attr, trackUrl, ⟨mbid, atext⟩, some uts, trackName, img⟩ =
          .ok (username ++ "-" ++ uts ++ "--" ++
            (if mbid = "" then atext else mbid) ++ "---" ++ trackName)) ∧
    (∀ (u1 u2 : String) (t1 t2 : RawTrack),
        u1 = u2 → t1 = t2 → mkguid u1 t1 = mkguid u2 t2) := by
  constructor
  · intro username uts mbid atext trackName trackUrl attr img
    rfl
  · intro u1 u2 t1 t2 h1 h2
    rw [h1, h2]

/-- Witness for C6 at concrete inputs: the format equation evaluated on
`tA` and the determinism conjunct on equal arguments. -/
theorem c6_mkguid_format_witness :
    mkguid "alice" tA = .ok ("alice" ++ "-" ++ "100" ++ "--" ++
      (if "mbidA" = "" then "ArtistA" else "mbidA") ++ "---" ++ "SongA") ∧
    mkguid "alice" tA = mkguid "alice" tA :=
  ⟨c6_mkguid_format.1 "alice" "100" "mbidA" "ArtistA" "SongA" "http://x/a" none none,
    c6_mkguid_format.2 "alice" "alice" tA tA rfl rfl⟩

/-- C7: the `create_rss` loop builds the same entries as it would on
the list with every `@attr.nowplaying == 'true'` track removed, so no
now-playing track produces a feed entry; on the concrete 3-track list
whose first element alone is tagged now-playing, the output has exactly
the two entries of the remaining tracks in their original order; and
the `get_recent_tracks` post-processing drops a leading now-playing
element from the list it returns. -/
theorem c7_nowplaying_excluded :
    (∀ (pc : PlaycountOracle) (probe : ProbeOracle) (username : String)
        (ts : List RawTrack),
        addTracks pc probe username ts =
          addTracks pc probe username (ts.filter (fun t => !nowplayingTrue t))) ∧
    ((addTracks pcNone probeNone "alice" [tNowPlaying, tA, tB]).map Entry.guid =
      [some "alice-100--mbidA---SongA", some "alice-90--ArtistB---SongB"]) ∧
    (∀ rest : List RawTrack, get_recent_tracks_post (tNowPlaying :: rest) = rest) := by
  refine ⟨?_, by decide, fun rest => rfl⟩
  intro pc probe username ts
  induction ts with
  | nil => rfl
  | cons t ts ih =>
    by_cases h : nowplayingTrue t
    · simp [addTracks, List.filter, h, ih]
    · simp [addTracks, List.filter, h, ih]

/-- C10: when the existing feed document contains at least one guid and
the fetched list's first track lacks the `date` field, the guard's
`mkguid` call raises `KeyError`, which `suppress(IndexError)` does not
catch, so `create_rss` raises before building or writing anything and
the existing file is untouched. -/
theorem c10_missing_date_raises (pc : PlaycountOracle) (probe : ProbeOracle)
    (username : String) (oldGuids : List String) (g : String)
    (t : RawTrack) (ts : List RawTrack)
    (hg : oldGuids.getLast? = some g) (hd : t.date_uts = none) :
    create_rss pc probe username (t :: ts) (some (.ok oldGuids)) = .error .keyError := by
  simp [create_rss, hg, mkguid, hd]

/-- Witness for C10: a one-guid existing document and a fetched list
headed by the dateless track `tNoDate`. -/
theorem c10_missing_date_raises_witness :
    create_rss pcNone probeNone "alice" [tNoDate] (some (.ok ["g0"])) =
      .error .keyError :=
  c10_missing_date_raises pcNone probeNone "alice" ["g0"] "g0" tNoDate [] rfl rfl

/-- C2 (amended): with an empty fetched track list and an existing file
that parses, the guard's `recent_tracks[0]` raises `IndexError`, which
is suppressed without deciding up-to-date, and `create_rss` falls
through to a full rebuild that overwrites the file with an empty feed
(zero entries) — not the UP_TO_DATE outcome the claim states. -/
theorem c2_empty_fetch_rebuilds (pc : PlaycountOracle) (probe : ProbeOracle)
    (username : String) (oldGuids : List String) :
    create_rss pc probe username [] (some (.ok oldGuids)) = .ok (.written []) := by
  cases hg : oldGuids.getLast? <;> simp [create_rss, hg, addTracks]

/-- Counterexample to C2 as stated: an existing parsed feed with one
guid and an empty fetched list yield a rewrite with an empty entry
list, not the UP_TO_DATE outcome. -/
theorem c2_counterexample :
    create_rss pcNone probeNone "alice" []
        (some (.ok ["alice-100--mbidA---SongA"])) = .ok (.written []) ∧
    create_rss pcNone probeNone "alice" []
        (some (.ok ["alice-100--mbidA---SongA"])) ≠ .ok .upToDate := by
  decide

/-- C3 (amended): when the existing file exists but is not well-formed
XML, `ElementTree.parse` raises and `create_rss` propagates the parse
error — that username's sync fails; only when the file parses but
contains no guid elements is the comparison's `IndexError` suppressed
and a full rebuild performed. -/
theorem c3_malformed_raises (pc : PlaycountOracle) (probe : ProbeOracle)
    (username : String) (ts : List RawTrack) :
    create_rss pc probe username ts (some .malformed) = .error .parseError ∧
    create_rss pc probe username ts (some (.ok [])) =
      .ok (.written (addTracks pc probe username ts)) := by
  exact ⟨rfl, rfl⟩

/-- Counterexample to C3 as stated: with a malformed existing file and
the fetched list `[tA]`, `create_rss` raises the parse error instead of
performing the full rebuild the claim predicts. -/
theorem c3_counterexample :
    create_rss pcNone probeNone "alice" [tA] (some .malformed) =
      .error .parseError ∧
    create_rss pcNone probeNone "alice" [tA] (some .malformed) ≠
      .ok (.written [(add_track_rss_entry pcNone probeNone "alice" tA).1]) := by
  decide

/-- C1 (amended): when the guid `create_rss` extracts from the existing
document — the text of the last `guid` element in document order, not
of the first — equals the guid `mkguid` computes from the first element
of the freshly fetched raw track list, the guard makes no write, leaves
the file's bytes unchanged and returns the existing path
(`RssOutcome.upToDate`). -/
theorem c1_up_to_date_guard (pc : PlaycountOracle) (probe : ProbeOracle)
    (username g : String) (oldGuids : List String)
    (t : RawTrack) (ts : List RawTrack)
    (hg : oldGuids.getLast? = some g)
    (hguid : mkguid username t = .ok g) :
    create_rss pc probe username (t :: ts) (some (.ok oldGuids)) = .ok .upToDate := by
  simp [create_rss, hg, hguid]

/-- Witness for C1 (amended): a one-entry existing document whose guid
is exactly `mkguid "alice" tA`. -/
theorem c1_up_to_date_guard_witness :
    create_rss pcNone probeNone "alice" [tA]
      (some (.ok ["alice-100--mbidA---SongA"])) = .ok .upToDate :=
  c1_up_to_date_guard pcNone probeNone "alice" "alice-100--mbidA---SongA"
    ["alice-100--mbidA---SongA"] tA [] rfl rfl

/-- Counterexample to C1 as stated: in an existing document whose FIRST
guid element equals the fresh first track's guid while a different guid
comes last, the code compares against the last one and rewrites instead
of returning up-to-date — the extracted guid is not that of the
document's first entry. -/
theorem c1_counterexample :
    mkguid "alice" tA = .ok "alice-100--mbidA---SongA" ∧
    create_rss pcNone probeNone "alice" [tA]
      (some (.ok ["alice-100--mbidA---SongA", "otherGuid"])) ≠ .ok .upToDate := by
  decide

/-- C4 (amended): when building the entry for one track raises (here: a
record lacking `date`, so `mkguid` raises `KeyError`), the exception is
caught at the loop, every remaining track is still processed and
`create_rss` still succeeds — but the failing track is not entirely
without trace: `feed.add_entry()` registers the entry before its fields
are set, so the partially populated entry (title set, guid, link and
published unset) remains in the feed. -/
theorem c4_track_failure_isolated (pc : PlaycountOracle) (probe : ProbeOracle)
    (username : String) (t : RawTrack) (ts : List RawTrack)
    (hnp : nowplayingTrue t = false) (hd : t.date_uts = none) :
    (add_track_rss_entry pc probe username t).2 = some .keyError ∧
    (add_track_rss_entry pc probe username t).1.title = some (entryTitle pc t) ∧
    (add_track_rss_entry pc probe username t).1.guid = none ∧
    (add_track_rss_entry pc probe username t).1.published = none ∧
    addTracks pc probe username (t :: ts) =
      (add_track_rss_entry pc probe username t).1 :: addTracks pc probe username ts ∧
    create_rss pc probe username (t :: ts) none =
      .ok (.written
        ((add_track_rss_entry pc probe username t).1 ::
          addTracks pc probe username ts)) := by
  simp [add_track_rss_entry, mkguid, hd, addTracks, hnp, create_rss]

/-- Witness for C4 (amended): the dateless track `tNoDate` followed by
the well-formed `tA`. -/
theorem c4_track_failure_isolated_witness :
    (add_track_rss_entry pcNone probeNone "alice" tNoDate).2 = some .keyError ∧
    (add_track_rss_entry pcNone probeNone "alice" tNoDate).1.title =
      some (entryTitle pcNone tNoDate) ∧
    (add_track_rss_entry pcNone probeNone "alice" tNoDate).1.guid = none ∧
    (add_track_rss_entry pcNone probeNone "alice" tNoDate).1.published = none ∧
    addTracks pcNone probeNone "alice" (tNoDate :: [tA]) =
      (add_track_rss_entry pcNone probeNone "alice" tNoDate).1 ::
        addTracks pcNone probeNone "alice" [tA] ∧
    create_rss pcNone probeNone "alice" (tNoDate :: [tA]) none =
      .ok (.written
        ((add_track_rss_entry pcNone probeNone "alice" tNoDate).1 ::
          addTracks pcNone probeNone "alice" [tA])) :=
  c4_track_failure_isolated pcNone probeNone "alice" tNoDate [tA] rfl rfl

/-- Counterexample to C4 as stated: with the raw list
`[tNoDate, tA]`, the failing first track contributes a (guid-less)
entry to the resulting feed — the output has two entries, not one. -/
theorem c4_counterexample :
    (addTracks pcNone probeNone "alice" [tNoDate, tA]).length = 2 ∧
    (addTracks pcNone probeNone "alice" [tNoDate, tA]).map Entry.guid =
      [none, some "alice-100--mbidA---SongA"] := by
  decide

/-- C5 (amended): in the historical `lastfeeder-cli.py` main loop each
username's sync sits in a `try`/`except Exception` that logs and
continues, so every username in the list is processed whatever the sync
results are; the current `cli.py` main loop has no such handler, and
only processes every username when no sync raises. -/
theorem c5_per_user_isolation :
    (∀ (sync : String → Except PyError Unit) (us : List String),
        (old_cli_main_run sync us).map Prod.fst = us) ∧
    (∀ (sync : String → Except PyError Unit) (us : List String),
        (∀ u ∈ us, sync u = .ok ()) → cli_main_run sync us = (us, none)) := by
  constructor
  · intro sync us
    induction us with
    | nil => rfl
    | cons u us ih => simp [old_cli_main_run, ih]
  · intro sync us h
    induction us with
    | nil => rfl
    | cons u us ih =>
      have hu : sync u = .ok () := h u (List.mem_cons_self u us)
      have hr := ih (fun v hv => h v (List.mem_cons_of_mem u hv))
      simp [cli_main_run, hu, hr]

/-- Witness for C5 (amended): the old loop on an always-failing sync
still visits both usernames; the new loop visits both when the sync
never raises. -/
theorem c5_per_user_isolation_witness :
    (old_cli_main_run (fun _ => .error .parseError) ["alice", "bob"]).map Prod.fst =
      ["alice", "bob"] ∧
    cli_main_run (fun _ => .ok ()) ["alice", "bob"] = (["alice", "bob"], none) :=
  ⟨c5_per_user_isolation.1 (fun _ => .error .parseError) ["alice", "bob"],
    c5_per_user_isolation.2 (fun _ => .ok ()) ["alice", "bob"] (fun _ _ => rfl)⟩

/-- Counterexample to C5 as stated: in the current `cli.py` loop a sync
failure on the first username is not caught — it escapes the loop and
the second username is never processed. -/
theorem c5_counterexample :
    cli_main_run (fun _ => .error .parseError) ["alice", "bob"] =
      (["alice"], some .parseError) ∧
    (cli_main_run (fun _ => .error .parseError) ["alice", "bob"]).1 ≠
      ["alice", "bob"] := by
  decide

/-- C8 (amended): the entry title is `"{artist display text} - {track
name}"`; the suffix `" ({n} play{s})"` (with the `s` exactly when
`n > 1`) is appended if and only if the play-count lookup yields a
NONZERO value — Python truthiness, which coincides with `n > 0` on the
API's non-negative counts but also fires on negative values; when the
lookup fails (`None`) the title carries no suffix while guid, link and
published are still populated, and the loop still processes the track
list. -/
theorem c8_playcount_title (probe : ProbeOracle) (username uts : String)
    (m k : Int) (t : RawTrack) (ts : List RawTrack)
    (hd : t.date_uts = some uts) (hm : pyInt? uts = some m)
    (hk : k ≠ 0) (hnp : nowplayingTrue t = false) :
    (add_track_rss_entry (fun _ _ => none) probe username t).1.title =
      some (t.artist.text ++ " - " ++ t.name) ∧
    (add_track_rss_entry (fun _ _ => none) probe username t).1.guid =
      some (username ++ "-" ++ uts ++ "--" ++
        (if t.artist.mbid = "" then t.artist.text else t.artist.mbid) ++
        "---" ++ t.name) ∧
    (add_track_rss_entry (fun _ _ => none) probe username t).1.link = some t.url ∧
    (add_track_rss_entry (fun _ _ => none) probe username t).1.published = some m ∧
    (add_track_rss_entry (fun _ _ => some k) probe username t).1.title =
      some (t.artist.text ++ " - " ++ t.name ++ " (" ++ toString k ++ " play" ++
        (if k > 1 then "s" else "") ++ ")") ∧
    (add_track_rss_entry (fun _ _ => some 0) probe username t).1.title =
      some (t.artist.text ++ " - " ++ t.name) ∧
    addTracks (fun _ _ => none) probe username (t :: ts) =
      (add_track_rss_entry (fun _ _ => none) probe username t).1 ::
        addTracks (fun _ _ => none) probe username ts := by
  obtain ⟨h1, h2, h3, h4⟩ :=
    add_track_core_fields (fun _ _ => none) probe username t uts m hd hm
  obtain ⟨g1, -, -, -⟩ :=
    add_track_core_fields (fun _ _ => some k) probe username t uts m hd hm
  obtain ⟨z1, -, -, -⟩ :=
    add_track_core_fields (fun _ _ => some 0) probe username t uts m hd hm
  refine ⟨?_, h2, h3, h4, ?_, ?_, ?_⟩
  · rw [h1]; rfl
  · rw [g1]; simp [entryTitle, hk]
  · rw [z1]; simp [entryTitle]
  · simp [addTracks, hnp]

/-- Witness for C8 (amended): `tA` with a failing lookup, a lookup of
`2` and a lookup of `0`. -/
theorem c8_playcount_title_witness :
    (add_track_rss_entry (fun _ _ => none) probeNone "alice" tA).1.title =
      some "ArtistA - SongA" ∧
    (add_track_rss_entry (fun _ _ => none) probeNone "alice" tA).1.guid =
      some "alice-100--mbidA---SongA" ∧
    (add_track_rss_entry (fun _ _ => none) probeNone "alice" tA).1.link =
      some "http://x/a" ∧
    (add_track_rss_entry (fun _ _ => none) probeNone "alice" tA).1.published =
      some 100 ∧
    (add_track_rss_entry (fun _ _ => some 2) probeNone "alice" tA).1.title =
      some "ArtistA - SongA (2 plays)" ∧
    (add_track_rss_entry (fun _ _ => some 0) probeNone "alice" tA).1.title =
      some "ArtistA - SongA" ∧
    addTracks (fun _ _ => none) probeNone "alice" (tA :: []) =
      (add_track_rss_entry (fun _ _ => none) probeNone "alice" tA).1 ::
        addTracks (fun _ _ => none) probeNone "alice" [] :=
  c8_playcount_title probeNone "alice" "100" 100 2 tA [] rfl rfl (by decide) rfl

/-- Counterexample to C8 as stated: a lookup yielding `-1` is truthy in
Python, so the suffix is appended although `-1` is not greater than
zero — the "if and only if the lookup yields a value greater than 0"
direction fails. -/
theorem c8_counterexample :
    (add_track_rss_entry (fun _ _ => some (-1)) probeNone "alice" tA).1.title =
      some "ArtistA - SongA (-1 play)" ∧
    (add_track_rss_entry (fun _ _ => some (-1)) probeNone "alice" tA).1.title ≠
      some "ArtistA - SongA" ∧
    ¬ ((-1 : Int) > 0) := by
  decide

/-- C9: an enclosure is attached only when the track carries a
non-empty image list whose last entry's trimmed text is non-empty and
the HEAD metadata probe succeeds on it, and the URL used is exactly
that trimmed last text; when the image list is present but the probe
fails, the raised error leaves the entry without enclosure while its
title, guid, link and published fields are already populated. -/
theorem c9_enclosure_probe (pc : PlaycountOracle) (probe : ProbeOracle)
    (username : String) (t : RawTrack) :
    ((add_track_rss_entry pc probe username t).1.enclosure ≠ none →
      ∃ imgs lastImage hdrs, t.image = some imgs ∧ imgs.getLast? = some lastImage ∧
        pyStrip lastImage ≠ "" ∧ probe (pyStrip lastImage) = some hdrs ∧
        (add_track_rss_entry pc probe username t).1.enclosure =
          some (pyStrip lastImage, hdrs)) ∧
    (∀ (uts : String) (m : Int) (imgs : List String) (lastImage : String),
      t.date_uts = some uts → pyInt? uts = some m → t.image = some imgs →
      imgs.getLast? = some lastImage → probe (pyStrip lastImage) = none →
      pyStrip lastImage ≠ "" →
      (add_track_rss_entry pc probe username t).1.enclosure = none ∧
      (add_track_rss_entry pc probe username t).2 = some .httpError ∧
      (add_track_rss_entry pc probe username t).1.title = some (entryTitle pc t) ∧
      (add_track_rss_entry pc probe username t).1.guid ≠ none ∧
      (add_track_rss_entry pc probe username t).1.link = some t.url ∧
      (add_track_rss_entry pc probe username t).1.published = some m) := by
  constructor
  · intro h
    cases hd2 : t.date_uts with
    | none => simp [add_track_rss_entry, mkguid, hd2] at h
    | some uts =>
      cases hpi : pyInt? uts with
      | none => simp [add_track_rss_entry, mkguid, hd2, hpi] at h
      | some m =>
        cases himg : t.image with
        | none => simp [add_track_rss_entry, mkguid, hd2, hpi, himg] at h
        | some imgs =>
          cases hlast : imgs.getLast? with
          | none => simp [add_track_rss_entry, mkguid, hd2, hpi, himg, hlast] at h
          | some lastImage =>
            by_cases hurl : pyStrip lastImage = ""
            · simp [add_track_rss_entry, mkguid, hd2, hpi, himg, hlast, hurl] at h
            · cases hpr : probe (pyStrip lastImage) with
              | none =>
                simp [add_track_rss_entry, mkguid, hd2, hpi, himg, hlast, hurl, hpr] at h
              | some hdrs =>
                refine ⟨imgs, lastImage, hdrs, rfl, hlast, hurl, hpr, ?_⟩
                simp [add_track_rss_entry, mkguid, hd2, hpi, himg, hlast, hurl, hpr]
  · intro uts m imgs lastImage hd hm himg hlast hpr hurl
    simp [add_track_rss_entry, mkguid, hd, hm, himg, hlast, hurl, hpr, entryTitle]

/-- Witness for C9: `tImg` (image list whose last entry is
`"  http://img/big  "`) against a succeeding probe, then against a
failing probe. -/
theorem c9_enclosure_probe_witness :
    (∃ imgs lastImage hdrs, tImg.image = some imgs ∧ imgs.getLast? = some lastImage ∧
        pyStrip lastImage ≠ "" ∧ probeOk (pyStrip lastImage) = some hdrs ∧
        (add_track_rss_entry pcNone probeOk "alice" tImg).1.enclosure =
          some (pyStrip lastImage, hdrs)) ∧
    ((add_track_rss_entry pcNone probeNone "alice" tImg).1.enclosure = none ∧
      (add_track_rss_entry pcNone probeNone "alice" tImg).2 = some .httpError ∧
      (add_track_rss_entry pcNone probeNone "alice" tImg).1.title =
        some (entryTitle pcNone tImg) ∧
      (add_track_rss_entry pcNone probeNone "alice" tImg).1.guid ≠ none ∧
      (add_track_rss_entry pcNone probeNone "alice" tImg).1.link = some tImg.url ∧
      (add_track_rss_entry pcNone probeNone "alice" tImg).1.published = some 70) :=
  ⟨(c9_enclosure_probe pcNone probeOk "alice" tImg).1 (by decide),
    (c9_enclosure_probe pcNone probeNone "alice" tImg).2 "70" 70
      ["http://img/small", "  http://img/big  "] "  http://img/big  "
      rfl rfl rfl rfl rfl (by decide)⟩

end Lastfeeder
